import Mathlib

/-!
Verification of the `pocket-ai-vercel` repository against its specification.

The repository consists of two Vercel serverless handlers
(`api/todo-from-speech.js` and `api/pocket-ai.js`) sharing a PCM-to-WAV
encoder.  We give a shallow embedding of the relevant source functions:

* byte buffers are `List Nat` (every entry a byte value `< 256`; the
  encoder only ever produces values reduced `% 256`);
* JavaScript strings are `List Char`;
* JavaScript values coming out of `JSON.parse` are the inductive `JsValue`
  (numbers are modelled as `Int`; `undefined` is `Option.none` where it can
  occur);
* `fetch` results and host exceptions are explicit parameters / `Except`.
-/

namespace PocketAI

/-- Little-endian encoding of a 16-bit field, as written by
`Buffer.writeUInt16LE`: two bytes, least significant first. -/
def u16le (n : Nat) : List Nat :=
  [n % 256, n / 256 % 256]

/-- Little-endian encoding of a 32-bit field, as written by
`Buffer.writeUInt32LE`: four bytes, least significant first. -/
def u32le (n : Nat) : List Nat :=
  [n % 256, n / 256 % 256, n / 65536 % 256, n / 16777216 % 256]

/-- ASCII bytes of a literal string, as written by `Buffer.write(s, off)`. -/
def asciiBytes (s : String) : List Nat :=
  s.data.map Char.toNat

/-- Embedding of `pcm16ToWavBuffer(pcmBuffer, {sampleRate, numChannels})`
from `api/todo-from-speech.js` lines 16–48 (the identical copy in
`api/pocket-ai.js`, and `pcm16ToWav` in the unnamed handler file, write the
same bytes in the same order).  The source allocates a zero-filled buffer of
`44 + dataSize` bytes and then writes contiguous, non-overlapping fields at
offsets 0,4,8,12,16,20,22,24,28,32,34,36,40 followed by the payload at 44;
the concatenation below lists those writes in offset order. -/
def pcm16ToWavBuffer (pcmBuffer : List Nat) (sampleRate numChannels : Nat) :
    List Nat :=
  let bitsPerSample := 16
  let byteRate := sampleRate * numChannels * bitsPerSample / 8
  let blockAlign := numChannels * bitsPerSample / 8
  let dataSize := pcmBuffer.length
  asciiBytes "RIFF"                -- ChunkID, offset 0
    ++ u32le (36 + dataSize)       -- ChunkSize, offset 4
    ++ asciiBytes "WAVE"           -- Format, offset 8
    ++ asciiBytes "fmt "           -- Subchunk1ID, offset 12
    ++ u32le 16                    -- Subchunk1Size, offset 16
    ++ u16le 1                     -- AudioFormat, offset 20
    ++ u16le numChannels           -- NumChannels, offset 22
    ++ u32le sampleRate            -- SampleRate, offset 24
    ++ u32le byteRate              -- ByteRate, offset 28
    ++ u16le blockAlign            -- BlockAlign, offset 32
    ++ u16le bitsPerSample         -- BitsPerSample, offset 34
    ++ asciiBytes "data"           -- Subchunk2ID, offset 36
    ++ u32le dataSize              -- Subchunk2Size, offset 40
    ++ pcmBuffer                   -- payload, offset 44

/-- Reading back a little-endian 32-bit field at offset `i`
(`Buffer.readUInt32LE` semantics; out-of-range reads see the zero fill). -/
def readU32LE (bs : List Nat) (i : Nat) : Nat :=
  bs.getD i 0 + 256 * bs.getD (i + 1) 0 + 65536 * bs.getD (i + 2) 0
    + 16777216 * bs.getD (i + 3) 0

/-- Reading back a little-endian 16-bit field at offset `i`. -/
def readU16LE (bs : List Nat) (i : Nat) : Nat :=
  bs.getD i 0 + 256 * bs.getD (i + 1) 0

/-- The encoder output, flattened to an explicit byte-by-byte list.  Used as
a rewriting bridge in the header-field proofs. -/
theorem pcm16ToWavBuffer_eq (p : List Nat) (r c : Nat) :
    pcm16ToWavBuffer p r c =
      82 :: 73 :: 70 :: 70
        :: (36 + p.length) % 256 :: (36 + p.length) / 256 % 256
        :: (36 + p.length) / 65536 % 256 :: (36 + p.length) / 16777216 % 256
        :: 87 :: 65 :: 86 :: 69
        :: 102 :: 109 :: 116 :: 32
        :: 16 :: 0 :: 0 :: 0
        :: 1 :: 0
        :: c % 256 :: c / 256 % 256
        :: r % 256 :: r / 256 % 256 :: r / 65536 % 256 :: r / 16777216 % 256
        :: (r * c * 16 / 8) % 256 :: (r * c * 16 / 8) / 256 % 256
        :: (r * c * 16 / 8) / 65536 % 256 :: (r * c * 16 / 8) / 16777216 % 256
        :: (c * 16 / 8) % 256 :: (c * 16 / 8) / 256 % 256
        :: 16 :: 0
        :: 100 :: 97 :: 116 :: 97
        :: p.length % 256 :: p.length / 256 % 256
        :: p.length / 65536 % 256 :: p.length / 16777216 % 256
        :: p := rfl

/-- JavaScript values a call to `JSON.parse` can produce (numbers are
modelled as `Int`; `undefined` never comes out of `JSON.parse` and is
represented by `Option.none` where property access can miss). -/
inductive JsValue where
  | null
  | bool (b : Bool)
  | num (n : Int)
  | str (s : String)
  | arr (elems : List JsValue)
  | obj (fields : List (String × JsValue))

/-- Property access `v[key]` on a non-`null` JavaScript value: an own
property of a plain object (`JSON.parse` keeps the last duplicate key), and
`undefined` (`none`) on every other value.  Access on `null` throws and is
handled separately at the call site. -/
def getField : JsValue → String → Option JsValue
  | .obj fields, key =>
      ((fields.filter (fun f => f.1 == key)).getLast?).map (fun f => f.2)
  | _, _ => none

/-- JavaScript truthiness of a possibly-`undefined` value, as used by
`!!parsed.is_todo`. -/
def jsTruthy : Option JsValue → Bool
  | none => false
  | some .null => false
  | some (.bool b) => b
  | some (.num n) => n != 0
  | some (.str s) => s != ""
  | some (.arr _) => true
  | some (.obj _) => true

/-- The nullish-coalescing pattern `x ?? null`: `undefined` and `null`
collapse to `null` (`none`); every other value passes through. -/
def nullishToNull : Option JsValue → Option JsValue
  | none => none
  | some .null => none
  | some v => some v

/-- Whitespace for `String.prototype.trim` (the characters that occur in
this codebase's data; the full JS set also has exotic Unicode spaces). -/
def isJsWhitespace (ch : Char) : Bool :=
  ch == ' ' || ch == '\t' || ch == '\n' || ch == '\r'

/-- Embedding of `String.prototype.trim`: drop whitespace from both ends. -/
def jsTrim (s : List Char) : List Char :=
  ((s.dropWhile isJsWhitespace).reverse.dropWhile isJsWhitespace).reverse

/-- The backquote character of a Markdown code fence. -/
def fenceChar : Char := Char.ofNat 96

/-- The three-character code-fence marker the analyzer strips. -/
def fenceMarker : List Char := [fenceChar, fenceChar, fenceChar]

/-- Embedding of `s.lastIndexOf(marker)` specialised to the fence marker:
the largest index at which the marker occurs, `none` when it never
occurs. -/
def lastFenceIdx (s : List Char) : Option Nat :=
  ((List.range (s.length + 1)).filter
      (fun i => (s.drop i).take 3 == fenceMarker)).getLast?

/-- Embedding of the fence-trimming step of `callAzureOpenAITodoAnalyzer`
(`api/todo-from-speech.js` lines 136–143): when the content starts with a
code fence and the last fence marker lies after the first newline, keep the
trimmed text strictly between them; otherwise leave the content unchanged. -/
def stripFence (content : List Char) : List Char :=
  if content.take 3 = fenceMarker then
    match content.findIdx? (fun ch => ch == '\n'), lastFenceIdx content with
    | some firstNewline, some lastFence =>
        if firstNewline < lastFence then
          jsTrim ((content.take lastFence).drop (firstNewline + 1))
        else content
    | _, _ => content
  else content

/-- The analyzer's structured result: always exactly the four fields the
source object literal carries (`whenField` embeds the JS field `when`).
`none` in an `Option JsValue` field represents JS `null`. -/
structure TodoResult where
  is_todo : Bool
  title : Option JsValue
  whenField : Option JsValue
  notes : Option JsValue

/-- The silent fallback object returned when `JSON.parse` throws. -/
def notTodoFallback : TodoResult :=
  ⟨false, none, none, none⟩

/-- Embedding of the response-processing tail of
`callAzureOpenAITodoAnalyzer` (`api/todo-from-speech.js` lines 126–164).
`parse` is the host `JSON.parse`, abstract here: `none` means it throws,
`some v` that it returns `v`.  `replyText` is the model's reply
(`choices[0].message.content`); the `||`-chain plus `?.trim()` in the
source make the processed content its trim, with the empty string when all
candidates are falsy.  An empty content throws; a reply that parses to
`null` makes the later `parsed.is_todo` access throw a `TypeError`. -/
def callAzureOpenAITodoAnalyzer (parse : List Char → Option JsValue)
    (replyText : List Char) : Except String TodoResult :=
  let content := jsTrim replyText
  if content.isEmpty then
    .error "Azure OpenAI からのTODO解析結果が空でした。"
  else
    let content := stripFence content
    match parse content with
    | none => .ok notTodoFallback
    | some .null => .error "TypeError: cannot read properties of null"
    | some parsed =>
        .ok ⟨jsTruthy (getField parsed "is_todo"),
             nullishToNull (getField parsed "title"),
             nullishToNull (getField parsed "when"),
             nullishToNull (getField parsed "notes")⟩

/-- Outcome of a host `fetch`: either it completed with some HTTP status,
or the promise rejected (network error and the like). -/
inductive FetchOutcome where
  | completed (status : Nat)
  | threw (msg : String)

/-- Embedding of `Response.ok`: status in the 200–299 range. -/
def statusOk (s : Nat) : Bool :=
  200 ≤ s && s < 300

/-- Embedding of `postTodoToNotion` (`api/todo-from-speech.js` lines
166–271).  `notionKey`/`notionDb` say whether the two credentials are
truthy; the page-building in between cannot fail, and the whole `fetch` is
wrapped in `try`/`catch`, so the function always returns a boolean: `false`
on missing credentials, non-2xx status or a thrown request error, `true`
only on a successful write. -/
def postTodoToNotion (notionKey notionDb : Bool)
    (outcome : FetchOutcome) : Bool :=
  if !notionKey || !notionDb then false
  else
    match outcome with
    | .completed s => statusOk s
    | .threw _ => false

/-- The four response shapes of the `todo-from-speech` handler. -/
inductive HandlerResponse where
  | methodNotAllowed (msg : String)
  | badRequest (msg : String)
  | okJson (recognizedText : List Char)
      (todoTitle todoWhen todoNotes : Option JsValue) (notionPosted : Bool)
  | serverError (msg : String)

/-- HTTP status of a handler response. -/
def respStatus : HandlerResponse → Nat
  | .methodNotAllowed _ => 405
  | .badRequest _ => 400
  | .okJson _ _ _ _ _ => 200
  | .serverError _ => 500

/-- Embedding of the exported handler of `api/todo-from-speech.js` (lines
273–341).  External effects are explicit parameters: `stt` is the result of
`callAzureSpeechToText` (`Except.error` when it throws), `llmReply` the raw
reply content of the Azure OpenAI call (`Except.error` when that call
throws before content processing), `parse` the host `JSON.parse`, and the
Notion parameters feed `postTodoToNotion`.  The body-level `try`/`catch`
turns every thrown error into a 500 response. -/
def todoFromSpeechHandler (method mode : String) (audioBase64 : List Char)
    (stt : Except String (List Char))
    (parse : List Char → Option JsValue)
    (llmReply : Except String (List Char))
    (notionKey notionDb : Bool) (notionFetch : FetchOutcome) :
    HandlerResponse :=
  if method ≠ "POST" then .methodNotAllowed "Method Not Allowed. Use POST."
  else if mode ≠ "utterance" then .badRequest "Unsupported mode"
  else if audioBase64.isEmpty then
    .badRequest "audioBase64 (Base64 PCM) が指定されていません。"
  else
    match stt with
    | .error e => .serverError e
    | .ok recognizedText =>
        if recognizedText.isEmpty then
          .okJson recognizedText none none none false
        else
          match llmReply with
          | .error e => .serverError e
          | .ok reply =>
              match callAzureOpenAITodoAnalyzer parse reply with
              | .error e => .serverError e
              | .ok todo =>
                  let notionPosted :=
                    if todo.is_todo then
                      postTodoToNotion notionKey notionDb notionFetch
                    else false
                  .okJson recognizedText todo.title todo.whenField todo.notes
                    notionPosted

/-- The `||`-chain over optional string fields, as in
`data.DisplayText || data.Text || ''`: an absent (`none`) or empty field
falls through to the alternative. -/
def jsStrOr (field : Option (List Char)) (alt : List Char) : List Char :=
  match field with
  | some s => if s.isEmpty then alt else s
  | none => alt

/-- Embedding of `callAzureSpeechToText` from `api/todo-from-speech.js`
(lines 50–78): missing credentials or a failed request throw; otherwise the
recognized text is `(data.DisplayText || data.Text || '').trim()`. -/
def callAzureSpeechToTextTodo (speechKey speechRegion : Bool)
    (outcome : FetchOutcome) (displayText textField : Option (List Char)) :
    Except String (List Char) :=
  if !speechKey || !speechRegion then
    .error "AZURE_SPEECH_KEY / AZURE_SPEECH_REGION が設定されていません。"
  else
    match outcome with
    | .threw m => .error m
    | .completed s =>
        if !statusOk s then .error "Azure Speech STT でエラーが発生しました"
        else .ok (jsTrim (jsStrOr displayText (jsStrOr textField [])))

/-- Embedding of `callAzureSpeechToText` from `api/pocket-ai.js` (lines
60–95): same request handling, but an empty recognized text is replaced by
the placeholder error string, and no trim is applied. -/
def callAzureSpeechToTextPocket (speechKey speechRegion : Bool)
    (outcome : FetchOutcome) (displayText textField : Option (List Char)) :
    Except String (List Char) :=
  if !speechKey || !speechRegion then
    .error "AZURE_SPEECH_KEY / AZURE_SPEECH_REGION が設定されていません。"
  else
    match outcome with
    | .threw m => .error m
    | .completed s =>
        if !statusOk s then .error "Azure Speech STT でエラーが発生しました"
        else
          let recognizedText := jsStrOr displayText (jsStrOr textField [])
          .ok (if recognizedText.isEmpty then
                 "エラーが発生しました。".data
               else recognizedText)

/-- C1: for every payload, sample rate and channel count the encoder
produces a byte sequence of length exactly `44 + L`; in particular the
empty payload yields the 44-byte header-only container. -/
theorem wav_output_length (p : List Nat) (r c : Nat) :
    (pcm16ToWavBuffer p r c).length = 44 + p.length ∧
    (pcm16ToWavBuffer ([] : List Nat) r c).length = 44 := by
  constructor
  · rw [pcm16ToWavBuffer_eq]
    simp
    omega
  · rfl

/-- C2: the little-endian 32-bit ChunkSize field at offset 4 decodes to
`36 + L` and the Subchunk2Size field at offset 40 decodes to `L`, for every
payload whose size fits the 32-bit field. -/
theorem wav_size_fields (p : List Nat) (r c : Nat)
    (h : 36 + p.length < 4294967296) :
    readU32LE (pcm16ToWavBuffer p r c) 4 = 36 + p.length ∧
    readU32LE (pcm16ToWavBuffer p r c) 40 = p.length := by
  rw [pcm16ToWavBuffer_eq]
  unfold readU32LE
  simp only [List.getD_cons_zero, List.getD_cons_succ]
  omega

theorem wav_size_fields_witness :
    36 + ([1, 2, 3, 4] : List Nat).length < 4294967296 ∧
    (readU32LE (pcm16ToWavBuffer [1, 2, 3, 4] 16000 1) 4 = 36 + ([1, 2, 3, 4] : List Nat).length ∧
     readU32LE (pcm16ToWavBuffer [1, 2, 3, 4] 16000 1) 40 = ([1, 2, 3, 4] : List Nat).length) :=
  ⟨by decide, wav_size_fields [1, 2, 3, 4] 16000 1 (by decide)⟩

/-- C3: stripping the 44-byte header from the encoder output recovers the
input payload byte-for-byte. -/
theorem wav_payload_roundtrip (p : List Nat) (r c : Nat) :
    (pcm16ToWavBuffer p r c).drop 44 = p := by
  rw [pcm16ToWavBuffer_eq]
  rfl

/-- C4: bytes 0–3 of the output are ASCII "RIFF", bytes 8–11 are "WAVE",
bytes 12–15 are "fmt " and bytes 36–39 are "data", for every input. -/
theorem wav_magic_bytes (p : List Nat) (r c : Nat) :
    (pcm16ToWavBuffer p r c).take 4 = asciiBytes "RIFF" ∧
    ((pcm16ToWavBuffer p r c).drop 8).take 4 = asciiBytes "WAVE" ∧
    ((pcm16ToWavBuffer p r c).drop 12).take 4 = asciiBytes "fmt " ∧
    ((pcm16ToWavBuffer p r c).drop 36).take 4 = asciiBytes "data" := by
  rw [pcm16ToWavBuffer_eq]
  exact ⟨rfl, rfl, rfl, rfl⟩

/-- C5: for positive sample rate `r` and channel count `c` (with the
products in the range of their fields), ByteRate at offset 28 decodes to
`r * c * 2`, BlockAlign at offset 32 to `c * 2`, BitsPerSample at offset 34
is 16, AudioFormat at offset 20 is 1, and Subchunk1Size at offset 16 is 16. -/
theorem wav_fmt_fields (p : List Nat) (r c : Nat)
    (hr : 0 < r) (hc : 0 < c)
    (hbr : r * c * 2 < 4294967296) (hba : c * 2 < 65536) :
    readU32LE (pcm16ToWavBuffer p r c) 28 = r * c * 2 ∧
    readU16LE (pcm16ToWavBuffer p r c) 32 = c * 2 ∧
    readU16LE (pcm16ToWavBuffer p r c) 34 = 16 ∧
    readU16LE (pcm16ToWavBuffer p r c) 20 = 1 ∧
    readU32LE (pcm16ToWavBuffer p r c) 16 = 16 := by
  refine ⟨?_, ?_, ?_, ?_, ?_⟩ <;>
    (rw [pcm16ToWavBuffer_eq];
     simp only [readU32LE, readU16LE, List.getD_cons_zero, List.getD_cons_succ] <;>
       omega)

theorem wav_fmt_fields_witness :
    (0 < 16000 ∧ 0 < 1 ∧ 16000 * 1 * 2 < 4294967296 ∧ 1 * 2 < 65536) ∧
    (readU32LE (pcm16ToWavBuffer [] 16000 1) 28 = 16000 * 1 * 2 ∧
     readU16LE (pcm16ToWavBuffer [] 16000 1) 32 = 1 * 2 ∧
     readU16LE (pcm16ToWavBuffer [] 16000 1) 34 = 16 ∧
     readU16LE (pcm16ToWavBuffer [] 16000 1) 20 = 1 ∧
     readU32LE (pcm16ToWavBuffer [] 16000 1) 16 = 16) :=
  ⟨⟨by decide, by decide, by decide, by decide⟩,
   wav_fmt_fields [] 16000 1 (by decide) (by decide) (by decide) (by decide)⟩

/-- C6 (counterexample): an empty language-model reply does not take the
silent "not a task" fallback — the analyzer raises an error (the
`if (!content)` throw precedes the `JSON.parse` fallback). -/
theorem todoAnalyzer_empty_reply_raises :
    callAzureOpenAITodoAnalyzer (fun _ => none) [] =
      .error "Azure OpenAI からのTODO解析結果が空でした。" := rfl

/-- C6 (amended): whenever the reply text is non-empty after trimming and
its fence-stripped content fails to parse as JSON, the analyzer raises no
error and silently returns the "not a task" result; an empty reply instead
raises an error (see the counterexample). -/
theorem todoAnalyzer_parse_failure_fallback
    (parse : List Char → Option JsValue) (reply : List Char)
    (hne : jsTrim reply ≠ [])
    (hparse : parse (stripFence (jsTrim reply)) = none) :
    callAzureOpenAITodoAnalyzer parse reply = .ok notTodoFallback := by
  cases h : jsTrim reply with
  | nil => exact absurd h hne
  | cons a as =>
      rw [h] at hparse
      simp only [callAzureOpenAITodoAnalyzer, h, List.isEmpty_cons,
        Bool.false_eq_true, if_false, hparse]

theorem todoAnalyzer_parse_failure_fallback_witness :
    jsTrim "x".data ≠ [] ∧
    callAzureOpenAITodoAnalyzer (fun _ => none) "x".data =
      .ok notTodoFallback :=
  ⟨by decide,
   todoAnalyzer_parse_failure_fallback (fun _ => none) "x".data
     (by decide) rfl⟩

/-- C8: on an STT response whose recognized-text candidates are all empty,
the `pocket-ai` helper substitutes the placeholder Japanese error string
while the `todo-from-speech` helper returns the empty string. -/
theorem stt_empty_text_divergence (displayText textField : Option (List Char))
    (s : Nat) (hok : statusOk s = true)
    (hempty : jsStrOr displayText (jsStrOr textField []) = []) :
    callAzureSpeechToTextPocket true true (.completed s)
        displayText textField = .ok "エラーが発生しました。".data ∧
    callAzureSpeechToTextTodo true true (.completed s)
        displayText textField = .ok [] := by
  unfold callAzureSpeechToTextPocket callAzureSpeechToTextTodo
  simp [hok, hempty, jsTrim]

theorem stt_empty_text_divergence_witness :
    statusOk 200 = true ∧
    jsStrOr none (jsStrOr none []) = ([] : List Char) ∧
    (callAzureSpeechToTextPocket true true (.completed 200) none none =
        .ok "エラーが発生しました。".data ∧
     callAzureSpeechToTextTodo true true (.completed 200) none none =
        .ok []) :=
  ⟨by decide, rfl, stt_empty_text_divergence none none 200 (by decide) rfl⟩

/-- C9: on a valid POST with empty recognized text, the handler's 200
response is exactly `{recognizedText: "", todoTitle: null, todoWhen: null,
todoNotes: null, notionPosted: false}`, for every language-model and Notion
behaviour — so neither the analyzer nor the Notion write can influence it
(they are never invoked). -/
theorem empty_recognized_text_short_circuit (audio : List Char)
    (parse : List Char → Option JsValue) (llm : Except String (List Char))
    (nk nd : Bool) (nf : FetchOutcome) (ha : audio ≠ []) :
    todoFromSpeechHandler "POST" "utterance" audio (.ok []) parse llm
        nk nd nf = .okJson [] none none none false := by
  cases audio with
  | nil => exact absurd rfl ha
  | cons a as => rfl

theorem empty_recognized_text_short_circuit_witness :
    "a".data ≠ [] ∧
    todoFromSpeechHandler "POST" "utterance" "a".data (.ok [])
        (fun _ => none) (.ok []) true true (.completed 200) =
      .okJson [] none none none false :=
  ⟨by decide,
   empty_recognized_text_short_circuit "a".data (fun _ => none) (.ok [])
     true true (.completed 200) (by decide)⟩

/-- C10: every result the analyzer returns (fallback or parsed) carries
exactly the four fields of `TodoResult`; on a parse failure it is the
fallback, and on a successful parse of a value `v` (necessarily not `null`,
which would throw) `is_todo` is the JS-truthiness coercion of `v.is_todo`
and each of `title`/`when`/`notes` is the parsed field when present and
non-null, and `null` otherwise. -/
theorem todoAnalyzer_result_shape (parse : List Char → Option JsValue)
    (reply : List Char) (t : TodoResult)
    (h : callAzureOpenAITodoAnalyzer parse reply = .ok t) :
    (parse (stripFence (jsTrim reply)) = none → t = notTodoFallback) ∧
    ∀ v, parse (stripFence (jsTrim reply)) = some v →
      v ≠ .null ∧
      t.is_todo = jsTruthy (getField v "is_todo") ∧
      t.title = nullishToNull (getField v "title") ∧
      t.whenField = nullishToNull (getField v "when") ∧
      t.notes = nullishToNull (getField v "notes") := by
  simp only [callAzureOpenAITodoAnalyzer] at h
  by_cases he : (jsTrim reply).isEmpty = true
  · rw [if_pos he] at h
    exact Except.noConfusion h
  · rw [if_neg he] at h
    cases hp : parse (stripFence (jsTrim reply)) with
    | none =>
        rw [hp] at h
        injection h with h'
        subst h'
        refine ⟨fun _ => rfl, fun v hv => ?_⟩
        exact Option.noConfusion hv
    | some v0 =>
        rw [hp] at h
        cases v0 with
        | null => exact Except.noConfusion h
        | bool b =>
            injection h with h'
            subst h'
            refine ⟨fun hnone => Option.noConfusion hnone,
                    fun v hv => ?_⟩
            have hvv := Option.some.inj hv
            subst hvv
            exact ⟨nofun, rfl, rfl, rfl, rfl⟩
        | num n =>
            injection h with h'
            subst h'
            refine ⟨fun hnone => Option.noConfusion hnone,
                    fun v hv => ?_⟩
            have hvv := Option.some.inj hv
            subst hvv
            exact ⟨nofun, rfl, rfl, rfl, rfl⟩
        | str s =>
            injection h with h'
            subst h'
            refine ⟨fun hnone => Option.noConfusion hnone,
                    fun v hv => ?_⟩
            have hvv := Option.some.inj hv
            subst hvv
            exact ⟨nofun, rfl, rfl, rfl, rfl⟩
        | arr xs =>
            injection h with h'
            subst h'
            refine ⟨fun hnone => Option.noConfusion hnone,
                    fun v hv => ?_⟩
            have hvv := Option.some.inj hv
            subst hvv
            exact ⟨nofun, rfl, rfl, rfl, rfl⟩
        | obj fs =>
            injection h with h'
            subst h'
            refine ⟨fun hnone => Option.noConfusion hnone,
                    fun v hv => ?_⟩
            have hvv := Option.some.inj hv
            subst hvv
            exact ⟨nofun, rfl, rfl, rfl, rfl⟩

theorem todoAnalyzer_result_shape_witness :
    callAzureOpenAITodoAnalyzer
        (fun _ => some (JsValue.obj
          [("is_todo", JsValue.bool true),
           ("title", JsValue.str "buy onions"),
           ("when", JsValue.null)]))
        "x".data =
      .ok ⟨true, some (JsValue.str "buy onions"), none, none⟩ ∧
    (JsValue.obj
          [("is_todo", JsValue.bool true),
           ("title", JsValue.str "buy onions"),
           ("when", JsValue.null)] ≠ JsValue.null ∧
     (⟨true, some (JsValue.str "buy onions"), none, none⟩ :
        TodoResult).is_todo =
       jsTruthy (getField (JsValue.obj
          [("is_todo", JsValue.bool true),
           ("title", JsValue.str "buy onions"),
           ("when", JsValue.null)]) "is_todo") ∧
     (⟨true, some (JsValue.str "buy onions"), none, none⟩ :
        TodoResult).title =
       nullishToNull (getField (JsValue.obj
          [("is_todo", JsValue.bool true),
           ("title", JsValue.str "buy onions"),
           ("when", JsValue.null)]) "title") ∧
     (⟨true, some (JsValue.str "buy onions"), none, none⟩ :
        TodoResult).whenField =
       nullishToNull (getField (JsValue.obj
          [("is_todo", JsValue.bool true),
           ("title", JsValue.str "buy onions"),
           ("when", JsValue.null)]) "when") ∧
     (⟨true, some (JsValue.str "buy onions"), none, none⟩ :
        TodoResult).notes =
       nullishToNull (getField (JsValue.obj
          [("is_todo", JsValue.bool true),
           ("title", JsValue.str "buy onions"),
           ("when", JsValue.null)]) "notes")) :=
  ⟨rfl,
   (todoAnalyzer_result_shape
      (fun _ => some (JsValue.obj
        [("is_todo", JsValue.bool true),
         ("title", JsValue.str "buy onions"),
         ("when", JsValue.null)]))
      "x".data
      ⟨true, some (JsValue.str "buy onions"), none, none⟩ rfl).2
     (JsValue.obj
        [("is_todo", JsValue.bool true),
         ("title", JsValue.str "buy onions"),
         ("when", JsValue.null)]) rfl⟩

/-- C7: the Notion write's outcome never changes the shape of the handler's
response — if the handler answers 200 with some Notion behaviour, it
answers 200 with the same recognized-text and todo fields under every other
Notion behaviour (credentials missing, non-success status, thrown request
error), and the `notionPosted` flag reports the write's outcome: `false`
whenever the write fails, `true` only when it succeeds. -/
theorem notion_failure_nonfatal (method mode : String) (audio : List Char)
    (stt : Except String (List Char)) (parse : List Char → Option JsValue)
    (llm : Except String (List Char)) (nk nd : Bool) (nf : FetchOutcome)
    (r : List Char) (t w n : Option JsValue) (p : Bool)
    (h : todoFromSpeechHandler method mode audio stt parse llm nk nd nf =
          .okJson r t w n p) :
    ∀ nk2 nd2 : Bool, ∀ nf2 : FetchOutcome, ∃ p2 : Bool,
      todoFromSpeechHandler method mode audio stt parse llm nk2 nd2 nf2 =
        .okJson r t w n p2 ∧
      (postTodoToNotion nk2 nd2 nf2 = false → p2 = false) ∧
      (p2 = true → postTodoToNotion nk2 nd2 nf2 = true) := by
  intro nk2 nd2 nf2
  unfold todoFromSpeechHandler at h ⊢
  by_cases hm : method ≠ "POST"
  · rw [if_pos hm] at h
    exact HandlerResponse.noConfusion h
  rw [if_neg hm] at h ⊢
  by_cases hmo : mode ≠ "utterance"
  · rw [if_pos hmo] at h
    exact HandlerResponse.noConfusion h
  rw [if_neg hmo] at h ⊢
  by_cases ha : audio.isEmpty = true
  · rw [if_pos ha] at h
    exact HandlerResponse.noConfusion h
  rw [if_neg ha] at h ⊢
  cases stt with
  | error e => exact HandlerResponse.noConfusion h
  | ok rt =>
      dsimp only at h ⊢
      by_cases hrt : rt.isEmpty = true
      · rw [if_pos hrt] at h ⊢
        injection h with h1 h2 h3 h4 h5
        subst h1
        subst h2
        subst h3
        subst h4
        exact ⟨false, rfl, fun _ => rfl, fun hp => absurd hp (by decide)⟩
      · rw [if_neg hrt] at h ⊢
        cases llm with
        | error e => exact HandlerResponse.noConfusion h
        | ok reply =>
            dsimp only at h ⊢
            cases hA : callAzureOpenAITodoAnalyzer parse reply with
            | error e =>
                rw [hA] at h
                exact HandlerResponse.noConfusion h
            | ok todo =>
                rw [hA] at h
                dsimp only at h ⊢
                injection h with h1 h2 h3 h4 h5
                subst h1
                subst h2
                subst h3
                subst h4
                refine ⟨if todo.is_todo then postTodoToNotion nk2 nd2 nf2
                          else false, rfl, ?_, ?_⟩
                · intro hfail
                  cases ht : todo.is_todo <;> simp [ht, hfail]
                · intro hp2
                  cases ht : todo.is_todo
                  · rw [ht] at hp2
                    simp at hp2
                  · rw [ht] at hp2
                    simpa using hp2

theorem notion_failure_nonfatal_witness :
    todoFromSpeechHandler "POST" "utterance" "a".data (.ok "a".data)
        (fun _ => some (JsValue.obj [("is_todo", JsValue.bool true)]))
        (.ok "x".data) true true (.completed 200) =
      .okJson "a".data none none none true ∧
    ∃ p2 : Bool,
      todoFromSpeechHandler "POST" "utterance" "a".data (.ok "a".data)
          (fun _ => some (JsValue.obj [("is_todo", JsValue.bool true)]))
          (.ok "x".data) false false (.threw "boom") =
        .okJson "a".data none none none p2 ∧
      (postTodoToNotion false false (.threw "boom") = false → p2 = false) ∧
      (p2 = true → postTodoToNotion false false (.threw "boom") = true) :=
  ⟨rfl,
   notion_failure_nonfatal "POST" "utterance" "a".data (.ok "a".data)
     (fun _ => some (JsValue.obj [("is_todo", JsValue.bool true)]))
     (.ok "x".data) true true (.completed 200)
     "a".data none none none true rfl false false (.threw "boom")⟩

end PocketAI
